import Mathlib

/-!
Shallow embedding of the data-access caching and query layer of
`src/livebot.py` (a Flask front-end over a remote spreadsheet), and proofs
about it.

Modelling choices:
* Timestamps (`time.time()`) are modelled as `Int`; the code only compares
  differences of timestamps against integer TTLs, and uses the truthiness of
  `fetched_at` (0.0 is falsy).
* The opaque gspread sheet handle is modelled as a `Nat` token.
* The outcome of the remote collaborators in one call is passed in
  explicitly: `connect : Option Nat` is the result of the credential-load /
  authorize / open sequence in `get_sheet` (`none` means that sequence
  raises), `readAll : Except Unit (List (List String))` is the result of
  `sheet.get_all_values()` (`.error ()` means it raises), and
  `appendRes : Except Unit Unit` is the result of `sheet.append_row(...)`.
  A Python exception that the code does not catch is modelled by the
  function returning `.error ()`.
* Module-level mutable state (`_sheet_singleton`, `_cached_data`) is
  threaded explicitly through `St`.
* `get_sheet` additionally reports how many authentication attempts the
  call made (0 or 1), and `get_sheet_data` reports how many remote full
  reads it performed (0 or 1); these counters make "no remote call"
  properties statable and correspond to entering the `try` block of
  `get_sheet` resp. reaching `sheet.get_all_values()`.
* Python's `str.strip().lower()` is modelled by `pyStrip`/`strLower` below
  (whitespace trimming and ASCII case folding on the character list; all
  claims and scenarios use ASCII data), and
  `q in s` by `listContains` below, substring containment on character lists.
-/

namespace Livebot

/-- Configuration read from environment variables (livebot.py lines 21-25).
`MAX_VISIBLE_ROWS = 0` means no limit; defaults: `SHOW_TABLE=false`,
`MAX_VISIBLE_ROWS=0`, `MAX_SEARCH_RESULTS=25`, `CACHE_TTL_SECONDS=15`,
`SHEET_REAUTH_SECONDS=3600`. -/
structure Config where
  SHOW_TABLE : Bool
  MAX_VISIBLE_ROWS : Nat
  MAX_SEARCH_RESULTS : Nat
  CACHE_TTL_SECONDS : Int
  SHEET_REAUTH_SECONDS : Int
deriving Repr, DecidableEq

/-- The default configuration of livebot.py. -/
def defaultConfig : Config := ⟨false, 0, 25, 15, 3600⟩

/-- The module-level `_sheet_singleton` dict: cached sheet handle and the
timestamp `ts` at which it was established. -/
structure SheetSingleton where
  sheet : Option Nat
  ts : Int
deriving Repr, DecidableEq

/-- The module-level `_cached_data` dict: the cached snapshot. -/
structure CachedData where
  headers : List String
  rows : List (List String)
  fetched_at : Int
deriving Repr, DecidableEq

/-- The whole module-level mutable state of livebot.py. -/
structure St where
  conn : SheetSingleton
  cache : CachedData
deriving Repr, DecidableEq

/-- Initial module state: `_sheet_singleton = {"sheet": None, "ts": 0.0}`,
`_cached_data = {"headers": [], "rows": [], "fetched_at": 0.0}`. -/
def initSt : St := ⟨⟨none, 0⟩, ⟨[], [], 0⟩⟩

/-- `get_sheet()` (livebot.py lines 31-53).  Returns the new singleton
state, the handle (`none` models the `except` branch returning `None`),
and the number of authentication attempts made (entering the `try` block). -/
def get_sheet (cfg : Config) (connect : Option Nat) (now : Int)
    (s : SheetSingleton) : SheetSingleton × Option Nat × Nat :=
  match s.sheet with
  | some sh =>
    if now - s.ts < cfg.SHEET_REAUTH_SECONDS then
      (s, some sh, 0)
    else
      match connect with
      | some sheet => (⟨some sheet, now⟩, some sheet, 1)
      | none => (s, none, 1)
  | none =>
    match connect with
    | some sheet => (⟨some sheet, now⟩, some sheet, 1)
    | none => (s, none, 1)

/-- `data[0] if data else []` (livebot.py line 66). -/
def pyHeaders (data : List (List String)) : List String :=
  data.headD []

/-- `data[1:] if len(data) > 1 else []` (livebot.py line 67). -/
def pyDataRows (data : List (List String)) : List (List String) :=
  if 1 < data.length then data.drop 1 else []

/-- Result of a successful `get_sheet_data` call: new module state, the
returned `(headers, rows)` pair, and the number of remote full reads
(`sheet.get_all_values()` calls) performed. -/
structure FetchResult where
  st : St
  headers : List String
  rows : List (List String)
  reads : Nat
deriving Repr, DecidableEq

/-- `get_sheet_data(force)` (livebot.py lines 56-73).  `.error ()` models an
exception from `sheet.get_all_values()` propagating out uncaught. -/
def get_sheet_data (cfg : Config) (connect : Option Nat)
    (readAll : Except Unit (List (List String))) (now : Int)
    (force : Bool) (st : St) : Except Unit FetchResult :=
  if force = false ∧ st.cache.fetched_at ≠ 0 ∧
      now - st.cache.fetched_at < cfg.CACHE_TTL_SECONDS then
    .ok ⟨st, st.cache.headers, st.cache.rows, 0⟩
  else
    match get_sheet cfg connect now st.conn with
    | (conn', none, _) => .ok ⟨⟨conn', st.cache⟩, [], [], 0⟩
    | (conn', some _, _) =>
      match readAll with
      | .error e => .error e
      | .ok data =>
        .ok ⟨⟨conn', ⟨pyHeaders data, pyDataRows data, now⟩⟩,
             pyHeaders data, pyDataRows data, 1⟩

/-- The `/add` route handler `add_row` (livebot.py lines 98-107).  Returns
the new module state and the row handed to `sheet.append_row` (`none` if no
connection was available, in which case the handler just redirects).
`.error ()` models an exception from `sheet.append_row` propagating out
uncaught. -/
def add_row (cfg : Config) (connect : Option Nat)
    (appendRes : Except Unit Unit) (now : Int)
    (name email age : String) (st : St) :
    Except Unit (St × Option (List String)) :=
  match get_sheet cfg connect now st.conn with
  | (conn', none, _) => .ok (⟨conn', st.cache⟩, none)
  | (conn', some _, _) =>
    match appendRes with
    | .error e => .error e
    | .ok _ => .ok (⟨conn', st.cache⟩, some [name, email, age])

/-- Python's substring containment `q in s` on character lists: `q` occurs
as a contiguous subsequence of `s` (the empty `q` is contained in
everything). -/
def listContains (q : List Char) : List Char → Bool
  | [] => q.isEmpty
  | c :: t => q.isPrefixOf (c :: t) || listContains q t

/-- `needle in hay` on strings. -/
def pyContains (hay needle : String) : Bool :=
  listContains needle.toList hay.toList

/-- Python's `str.lower()`, modelled as ASCII case folding applied to every
character of the string. -/
def strLower (s : String) : String :=
  ⟨s.data.map Char.toLower⟩

/-- Python's `str.strip()`: remove leading and trailing whitespace. -/
def pyStrip (s : String) : String :=
  ⟨((s.data.dropWhile Char.isWhitespace).reverse.dropWhile
    Char.isWhitespace).reverse⟩

/-- `query in str(cell).lower()` (livebot.py line 133); cells are strings,
so `str(cell)` is the identity. -/
def cellMatches (query cell : String) : Bool :=
  pyContains (strLower cell) query

/-- `any(query in str(cell).lower() for cell in row)` (livebot.py line 133). -/
def rowMatches (query : String) (row : List String) : Bool :=
  row.any (fun cell => cellMatches query cell)

/-- The result-size limit of `search_rows` (livebot.py lines 136-137):
`if MAX_SEARCH_RESULTS and len(filtered) > MAX_SEARCH_RESULTS:
filtered = filtered[:MAX_SEARCH_RESULTS]` (0 is falsy, so 0 disables the
limit). -/
def truncateResults (cfg : Config) (l : List (List String)) :
    List (List String) :=
  if cfg.MAX_SEARCH_RESULTS ≠ 0 ∧ cfg.MAX_SEARCH_RESULTS < l.length then
    l.take cfg.MAX_SEARCH_RESULTS
  else l

/-- The filtering-and-limiting part of the `/search` route handler
`search_rows` (livebot.py lines 123-139), parameterised by the snapshot
`(headers, rows)` that `get_sheet_data()` returned.  Returns the
`(headers, rows)` payload of the JSON response. -/
def search_rows (cfg : Config) (q : String) (headers : List String)
    (rows : List (List String)) : List String × List (List String) :=
  let query := strLower (pyStrip q)
  if query = "" then ([], [])
  else if headers.isEmpty && rows.isEmpty then ([], [])
  else
    (headers, truncateResults cfg (rows.filter (fun row => rowMatches query row)))

/-- The table part of the `/` route handler `index` (livebot.py lines
76-95), parameterised by the snapshot `(headers, rows)` that
`get_sheet_data()` returned: the `(headers, rows)` passed to the template
(`rows[-MAX_VISIBLE_ROWS:]` is `drop (length - MAX_VISIBLE_ROWS)` when
`0 < MAX_VISIBLE_ROWS < length`). -/
def index (cfg : Config) (headers : List String)
    (rows : List (List String)) : List String × List (List String) :=
  if headers.isEmpty && rows.isEmpty then ([], [])
  else if cfg.SHOW_TABLE then
    if cfg.MAX_VISIBLE_ROWS ≠ 0 ∧ cfg.MAX_VISIBLE_ROWS < rows.length then
      (headers, rows.drop (rows.length - cfg.MAX_VISIBLE_ROWS))
    else (headers, rows)
  else ([], [])

/-- The predicate claim C4 literally states on a row: some cell contains
the raw (unstripped) query `q` as a case-insensitive substring. -/
def rowMatchesClaim (q : String) (row : List String) : Bool :=
  row.any (fun cell => pyContains (strLower cell) (strLower q))

/-! ### Helper lemmas about `get_sheet` -/

/-- A cached handle younger than `SHEET_REAUTH_SECONDS` is served as is,
with no authentication attempt and no state change. -/
lemma get_sheet_fresh (cfg : Config) (connect : Option Nat) (now : Int)
    (conn : SheetSingleton) (sh : Nat) (hs : conn.sheet = some sh)
    (ht : now - conn.ts < cfg.SHEET_REAUTH_SECONDS) :
    get_sheet cfg connect now conn = (conn, some sh, 0) := by
  unfold get_sheet
  rw [hs]
  simp only [if_pos ht]

/-- When no cached handle is fresh and the connection attempt fails,
`get_sheet` returns no handle and leaves the singleton untouched, after one
authentication attempt. -/
lemma get_sheet_stale_none (cfg : Config) (now : Int) (conn : SheetSingleton)
    (h : conn.sheet = none ∨ cfg.SHEET_REAUTH_SECONDS ≤ now - conn.ts) :
    get_sheet cfg none now conn = (conn, none, 1) := by
  cases hc : conn.sheet with
  | none => simp [get_sheet, hc]
  | some sh =>
    have hle : cfg.SHEET_REAUTH_SECONDS ≤ now - conn.ts := by
      rcases h with h | h
      · rw [hc] at h; exact absurd h (by simp)
      · exact h
    simp [get_sheet, hc, not_lt.mpr hle]

/-- If `get_sheet` comes back without a handle, it has not modified the
singleton state. -/
lemma get_sheet_none_frame (cfg : Config) (connect : Option Nat) (now : Int)
    (conn : SheetSingleton)
    (h : (get_sheet cfg connect now conn).2.1 = none) :
    (get_sheet cfg connect now conn).1 = conn := by
  cases hc : conn.sheet with
  | none =>
    cases connect with
    | none => simp [get_sheet, hc]
    | some s => simp [get_sheet, hc] at h
  | some sh =>
    by_cases ht : now - conn.ts < cfg.SHEET_REAUTH_SECONDS
    · simp [get_sheet, hc, ht]
    · cases connect with
      | none => simp [get_sheet, hc, ht]
      | some s => simp [get_sheet, hc, ht] at h

/-- With a succeeding connection attempt, `get_sheet` always yields a
handle. -/
lemma get_sheet_some_conn (cfg : Config) (h : Nat) (now : Int)
    (conn : SheetSingleton) :
    ∃ sh, (get_sheet cfg (some h) now conn).2.1 = some sh := by
  cases hc : conn.sheet with
  | none => exact ⟨h, by simp [get_sheet, hc]⟩
  | some sh =>
    by_cases ht : now - conn.ts < cfg.SHEET_REAUTH_SECONDS
    · exact ⟨sh, by simp [get_sheet, hc, ht]⟩
    · exact ⟨h, by simp [get_sheet, hc, ht]⟩

/-! ### Helper lemmas about `get_sheet_data` -/

/-- Cache hit: fresh snapshot, not forced. -/
lemma get_sheet_data_hit (cfg : Config) (connect : Option Nat)
    (readAll : Except Unit (List (List String))) (now : Int) (st : St)
    (h1 : st.cache.fetched_at ≠ 0)
    (h2 : now - st.cache.fetched_at < cfg.CACHE_TTL_SECONDS) :
    get_sheet_data cfg connect readAll now false st =
      .ok ⟨st, st.cache.headers, st.cache.rows, 0⟩ := by
  unfold get_sheet_data
  rw [if_pos ⟨rfl, h1, h2⟩]

/-- Cache miss with no connection available. -/
lemma get_sheet_data_noconn (cfg : Config) (connect : Option Nat)
    (readAll : Except Unit (List (List String))) (now : Int) (force : Bool)
    (st : St)
    (hmiss : ¬(force = false ∧ st.cache.fetched_at ≠ 0 ∧
      now - st.cache.fetched_at < cfg.CACHE_TTL_SECONDS))
    (hconn : (get_sheet cfg connect now st.conn).2.1 = none) :
    get_sheet_data cfg connect readAll now force st = .ok ⟨st, [], [], 0⟩ := by
  have hframe := get_sheet_none_frame cfg connect now st.conn hconn
  unfold get_sheet_data
  rw [if_neg hmiss]
  rcases hg : get_sheet cfg connect now st.conn with ⟨conn', o, k⟩
  rw [hg] at hconn hframe
  simp only at hconn hframe
  subst hconn
  subst hframe
  rfl

/-- Cache miss, connection available, remote read succeeds. -/
lemma get_sheet_data_read (cfg : Config) (connect : Option Nat)
    (data : List (List String)) (now : Int) (force : Bool) (st : St) (sh : Nat)
    (hmiss : ¬(force = false ∧ st.cache.fetched_at ≠ 0 ∧
      now - st.cache.fetched_at < cfg.CACHE_TTL_SECONDS))
    (hconn : (get_sheet cfg connect now st.conn).2.1 = some sh) :
    get_sheet_data cfg connect (.ok data) now force st =
      .ok ⟨⟨(get_sheet cfg connect now st.conn).1,
            ⟨pyHeaders data, pyDataRows data, now⟩⟩,
           pyHeaders data, pyDataRows data, 1⟩ := by
  unfold get_sheet_data
  rw [if_neg hmiss]
  rcases hg : get_sheet cfg connect now st.conn with ⟨conn', o, k⟩
  rw [hg] at hconn
  simp only at hconn
  subst hconn
  rfl

/-! ### Helper lemmas about the query engine -/

/-- Lowercasing a string yields the empty string only for the empty
string. -/
lemma strLower_empty_iff (s : String) : strLower s = "" ↔ s = "" := by
  cases s with
  | mk data =>
    constructor
    · intro h
      have hd := congrArg String.data h
      simp only [strLower, List.map_eq_nil_iff] at hd
      rw [hd]
    · intro h
      rw [h]
      rfl

/-- Truncation only ever drops rows: membership is preserved downward. -/
lemma mem_truncateResults (cfg : Config) (l : List (List String))
    (row : List String) (h : row ∈ truncateResults cfg l) : row ∈ l := by
  unfold truncateResults at h
  split at h
  · exact List.mem_of_mem_take h
  · exact h

/-- With a positive limit, truncation is exactly `List.take`. -/
lemma truncateResults_eq_take (cfg : Config) (l : List (List String))
    (hmax : cfg.MAX_SEARCH_RESULTS ≠ 0) :
    truncateResults cfg l = l.take cfg.MAX_SEARCH_RESULTS := by
  unfold truncateResults
  split
  · rfl
  · next h =>
    push_neg at h
    exact (List.take_of_length_le (h hmax)).symm

/-- With limit 0 ("falsy"), truncation is the identity. -/
lemma truncateResults_zero (cfg : Config) (l : List (List String))
    (h0 : cfg.MAX_SEARCH_RESULTS = 0) : truncateResults cfg l = l := by
  unfold truncateResults
  rw [if_neg]
  rintro ⟨h, _⟩
  exact h h0

/-- For a query with non-whitespace content, the rows returned by
`search_rows` are the matching rows, truncated. -/
lemma search_rows_eq (cfg : Config) (q : String) (headers : List String)
    (rows : List (List String)) (hq : pyStrip q ≠ "") :
    (search_rows cfg q headers rows).2 =
      truncateResults cfg
        (rows.filter (fun row => rowMatches (strLower (pyStrip q)) row)) := by
  have hql : strLower (pyStrip q) ≠ "" := fun h => hq ((strLower_empty_iff _).mp h)
  unfold search_rows
  rw [if_neg hql]
  by_cases he : (headers.isEmpty && rows.isEmpty) = true
  · rw [if_pos he]
    have hr : rows = [] :=
      List.isEmpty_iff.mp (Bool.and_elim_right he)
    subst hr
    simp [truncateResults]
  · rw [if_neg he]

/-- Cache miss, connection available, remote read raises: the exception
propagates. -/
lemma get_sheet_data_read_err (cfg : Config) (connect : Option Nat)
    (e : Unit) (now : Int) (force : Bool) (st : St) (sh : Nat)
    (hmiss : ¬(force = false ∧ st.cache.fetched_at ≠ 0 ∧
      now - st.cache.fetched_at < cfg.CACHE_TTL_SECONDS))
    (hconn : (get_sheet cfg connect now st.conn).2.1 = some sh) :
    get_sheet_data cfg connect (.error e) now force st = .error e := by
  unfold get_sheet_data
  rw [if_neg hmiss]
  rcases hg : get_sheet cfg connect now st.conn with ⟨conn', o, k⟩
  rw [hg] at hconn
  simp only at hconn
  subst hconn
  rfl

/-- A successful `add_row` never changes the snapshot cache. -/
lemma add_row_cache_frame (cfg : Config) (connect : Option Nat)
    (appendRes : Except Unit Unit) (now : Int) (name email age : String)
    (st st' : St) (w : Option (List String))
    (h : add_row cfg connect appendRes now name email age st = .ok (st', w)) :
    st'.cache = st.cache := by
  unfold add_row at h
  rcases hg : get_sheet cfg connect now st.conn with ⟨conn', o, k⟩
  rw [hg] at h
  cases o with
  | none =>
    simp only [Except.ok.injEq, Prod.mk.injEq] at h
    rw [← h.1]
  | some sh =>
    cases appendRes with
    | error e => simp at h
    | ok u =>
      simp only [Except.ok.injEq, Prod.mk.injEq] at h
      rw [← h.1]

/-! ### Claim theorems -/

/-- C1 counterexample: with the sheet caches empty, a connection attempt
that succeeds followed by a remote read (resp. remote write) that raises
makes `get_sheet_data` (resp. `add_row`) propagate the exception to the
route-handler caller — refuting the claim that every remote-access failure
is converted into an empty-result sentinel. -/
theorem C1_counterexample :
    get_sheet_data defaultConfig (some 0) (.error ()) 1 true initSt =
      .error () ∧
    add_row defaultConfig (some 0) (.error ()) 1 "a" "b" "c" initSt =
      .error () :=
  ⟨rfl, rfl⟩

/-- C1 amended: only connection-establishment failures are caught (inside
`get_sheet`) and surface as "no data": with no connectable remote,
`get_sheet_data` never raises.  But an exception from the remote read in
`get_sheet_data`, or from the remote write in `add_row`, is not caught and
propagates to the route-handler caller. -/
theorem C1_amended_error_boundary (cfg : Config)
    (readAll : Except Unit (List (List String))) (now : Int) (force : Bool)
    (st : St) (hc : st.conn.sheet = none) :
    (get_sheet_data cfg none readAll now force st).isOk = true ∧
    (∀ (h : Nat) (e : Unit), force = true →
      get_sheet_data cfg (some h) (.error e) now force st = .error e) ∧
    (∀ (h : Nat) (e : Unit) (name email age : String),
      add_row cfg (some h) (.error e) now name email age st = .error e) := by
  refine ⟨?_, ?_, ?_⟩
  · by_cases hhit : force = false ∧ st.cache.fetched_at ≠ 0 ∧
        now - st.cache.fetched_at < cfg.CACHE_TTL_SECONDS
    · obtain ⟨hf, h1, h2⟩ := hhit
      subst hf
      rw [get_sheet_data_hit cfg none readAll now st h1 h2]
      rfl
    · have hgs : (get_sheet cfg none now st.conn).2.1 = none := by
        rw [get_sheet_stale_none cfg now st.conn (Or.inl hc)]
      rw [get_sheet_data_noconn cfg none readAll now force st hhit hgs]
      rfl
  · intro h e hf
    subst hf
    have hmiss : ¬(true = false ∧ st.cache.fetched_at ≠ 0 ∧
        now - st.cache.fetched_at < cfg.CACHE_TTL_SECONDS) := by
      rintro ⟨hff, -⟩
      exact absurd hff (by simp)
    have hgs : (get_sheet cfg (some h) now st.conn).2.1 = some h := by
      simp [get_sheet, hc]
    exact get_sheet_data_read_err cfg (some h) e now true st h hmiss hgs
  · intro h e name email age
    have hgs : get_sheet cfg (some h) now st.conn =
        (⟨some h, now⟩, some h, 1) := by
      simp [get_sheet, hc]
    unfold add_row
    rw [hgs]

/-- C1 amended witness: with an empty connection cache and a failing
connection attempt, a call to `get_sheet_data` does not raise. -/
theorem C1_amended_error_boundary_witness :
    (get_sheet_data defaultConfig none (.error ()) 3 false initSt).isOk =
      true :=
  (C1_amended_error_boundary defaultConfig (.error ()) 3 false initSt rfl).1

/-- C8: `add_row` leaves the snapshot cache (headers, rows, `fetched_at`)
exactly as it was; hence a non-forced read within the TTL window after a
successful append still serves the pre-append snapshot. -/
theorem C8_append_preserves_snapshot_cache (cfg : Config)
    (connect : Option Nat) (appendRes : Except Unit Unit) (now : Int)
    (name email age : String) (st : St) :
    (∀ (st' : St) (w : Option (List String)),
      add_row cfg connect appendRes now name email age st = .ok (st', w) →
      st'.cache = st.cache) ∧
    (∀ (st' : St) (w : Option (List String)) (connect2 : Option Nat)
        (readAll2 : Except Unit (List (List String))) (now2 : Int),
      add_row cfg connect appendRes now name email age st = .ok (st', w) →
      st.cache.fetched_at ≠ 0 →
      now2 - st.cache.fetched_at < cfg.CACHE_TTL_SECONDS →
      get_sheet_data cfg connect2 readAll2 now2 false st' =
        .ok ⟨st', st.cache.headers, st.cache.rows, 0⟩) := by
  constructor
  · exact fun st' w h =>
      add_row_cache_frame cfg connect appendRes now name email age st st' w h
  · intro st' w connect2 readAll2 now2 h h1 h2
    have hcache :=
      add_row_cache_frame cfg connect appendRes now name email age st st' w h
    have hhit := get_sheet_data_hit cfg connect2 readAll2 now2 st'
      (by rw [hcache]; exact h1) (by rw [hcache]; exact h2)
    rw [hhit, hcache]

/-- C8 witness: a concrete append into a state holding a fresh snapshot
leaves the snapshot cache untouched. -/
theorem C8_append_preserves_snapshot_cache_witness :
    (⟨⟨some 1, 2⟩, ⟨["H"], [["r"]], 5⟩⟩ : St).cache =
      (⟨⟨none, 0⟩, ⟨["H"], [["r"]], 5⟩⟩ : St).cache :=
  (C8_append_preserves_snapshot_cache defaultConfig (some 1) (.ok ()) 2
    "n" "e" "a" ⟨⟨none, 0⟩, ⟨["H"], [["r"]], 5⟩⟩).1
    ⟨⟨some 1, 2⟩, ⟨["H"], [["r"]], 5⟩⟩ (some ["n", "e", "a"]) rfl

/-- C2: with a snapshot fetched at a (truthy) time `fetched_at` and
`now - fetched_at < CACHE_TTL_SECONDS`, a non-forced `get_sheet_data`
returns the cached headers and rows unchanged, leaves the whole state
unchanged, and performs no remote read; consequently, starting from an
empty cache, a successful fetch at `now1` followed by a second non-forced
call at `now2` with `now2 - now1 < CACHE_TTL_SECONDS` performs exactly one
remote read in total (1 then 0), the second call serving the first call's
snapshot even if the remote would fail. -/
theorem C2_snapshot_cache_hit (cfg : Config) (connect : Option Nat)
    (readAll : Except Unit (List (List String))) (now : Int) (st : St)
    (h1 : st.cache.fetched_at ≠ 0)
    (h2 : now - st.cache.fetched_at < cfg.CACHE_TTL_SECONDS) :
    get_sheet_data cfg connect readAll now false st =
      .ok ⟨st, st.cache.headers, st.cache.rows, 0⟩ ∧
    ∀ (h : Nat) (data : List (List String)) (now1 now2 : Int) (st0 : St),
      st0.cache.fetched_at = 0 → now1 ≠ 0 →
      now2 - now1 < cfg.CACHE_TTL_SECONDS →
      ∃ st1 : St,
        get_sheet_data cfg (some h) (.ok data) now1 false st0 =
          .ok ⟨st1, pyHeaders data, pyDataRows data, 1⟩ ∧
        st1.cache = ⟨pyHeaders data, pyDataRows data, now1⟩ ∧
        get_sheet_data cfg connect readAll now2 false st1 =
          .ok ⟨st1, pyHeaders data, pyDataRows data, 0⟩ := by
  constructor
  · exact get_sheet_data_hit cfg connect readAll now st h1 h2
  · intro h data now1 now2 st0 h0 hn1 htt
    obtain ⟨sh, hsh⟩ := get_sheet_some_conn cfg h now1 st0.conn
    have hmiss : ¬(false = false ∧ st0.cache.fetched_at ≠ 0 ∧
        now1 - st0.cache.fetched_at < cfg.CACHE_TTL_SECONDS) := by
      rintro ⟨-, hne, -⟩
      exact hne h0
    refine ⟨⟨(get_sheet cfg (some h) now1 st0.conn).1,
      ⟨pyHeaders data, pyDataRows data, now1⟩⟩, ?_, rfl, ?_⟩
    · exact get_sheet_data_read cfg (some h) data now1 false st0 sh hmiss hsh
    · exact get_sheet_data_hit cfg connect readAll now2 _ hn1 htt

/-- C2 witness: a concrete fresh-cache hit. -/
theorem C2_snapshot_cache_hit_witness :
    get_sheet_data defaultConfig none (.error ()) 10 false
        ⟨⟨none, 0⟩, ⟨["H"], [["r"]], 5⟩⟩ =
      .ok ⟨⟨⟨none, 0⟩, ⟨["H"], [["r"]], 5⟩⟩, ["H"], [["r"]], 0⟩ :=
  (C2_snapshot_cache_hit defaultConfig none (.error ()) 10
    ⟨⟨none, 0⟩, ⟨["H"], [["r"]], 5⟩⟩ (by decide) (by decide)).1

/-- C3: when `get_sheet` yields no handle and the cached snapshot does not
satisfy the freshness test, `get_sheet_data` returns the empty snapshot and
leaves the entire state — in particular `fetched_at` — unchanged; and if
the cache was empty (`fetched_at = 0`), a later non-forced call with a
working connection does retry the remote source and performs a read. -/
theorem C3_no_connection_empty_snapshot (cfg : Config) (connect : Option Nat)
    (readAll : Except Unit (List (List String))) (now : Int) (force : Bool)
    (st : St)
    (hconn : (get_sheet cfg connect now st.conn).2.1 = none)
    (hmiss : ¬(force = false ∧ st.cache.fetched_at ≠ 0 ∧
      now - st.cache.fetched_at < cfg.CACHE_TTL_SECONDS)) :
    get_sheet_data cfg connect readAll now force st = .ok ⟨st, [], [], 0⟩ ∧
    (st.cache.fetched_at = 0 →
      ∀ (h : Nat) (data : List (List String)) (now' : Int),
        ∃ st1 : St,
          get_sheet_data cfg (some h) (.ok data) now' false st =
            .ok ⟨st1, pyHeaders data, pyDataRows data, 1⟩) := by
  constructor
  · exact get_sheet_data_noconn cfg connect readAll now force st hmiss hconn
  · intro h0 h data now'
    obtain ⟨sh, hsh⟩ := get_sheet_some_conn cfg h now' st.conn
    have hmiss' : ¬(false = false ∧ st.cache.fetched_at ≠ 0 ∧
        now' - st.cache.fetched_at < cfg.CACHE_TTL_SECONDS) := by
      rintro ⟨-, hne, -⟩
      exact hne h0
    exact ⟨_, get_sheet_data_read cfg (some h) data now' false st sh hmiss' hsh⟩

/-- C3 witness: empty connection cache, failing connection attempt, empty
snapshot cache at time 7. -/
theorem C3_no_connection_empty_snapshot_witness :
    get_sheet_data defaultConfig none (.ok [["X"]]) 7 false initSt =
      .ok ⟨initSt, [], [], 0⟩ :=
  (C3_no_connection_empty_snapshot defaultConfig none (.ok [["X"]]) 7 false
    initSt (by decide) (by decide)).1

/-- C6: on a cache miss with a connection available, a successful remote
read of `data` stores headers `pyHeaders data` (the first row) and rows
`pyDataRows data` (the remainder) with timestamp `now`, returns them, and
counts one remote read; a read of at most one row yields no data rows, and
a read of zero rows also yields empty headers. -/
theorem C6_read_splits_first_row (cfg : Config) (connect : Option Nat)
    (data : List (List String)) (now : Int) (force : Bool) (st : St) (sh : Nat)
    (hmiss : ¬(force = false ∧ st.cache.fetched_at ≠ 0 ∧
      now - st.cache.fetched_at < cfg.CACHE_TTL_SECONDS))
    (hconn : (get_sheet cfg connect now st.conn).2.1 = some sh) :
    get_sheet_data cfg connect (.ok data) now force st =
      .ok ⟨⟨(get_sheet cfg connect now st.conn).1,
            ⟨pyHeaders data, pyDataRows data, now⟩⟩,
           pyHeaders data, pyDataRows data, 1⟩ ∧
    (data.length ≤ 1 → pyDataRows data = []) ∧
    (data = [] → pyHeaders data = []) := by
  refine ⟨get_sheet_data_read cfg connect data now force st sh hmiss hconn,
    ?_, ?_⟩
  · intro hle
    unfold pyDataRows
    rw [if_neg (not_lt.mpr hle)]
  · intro hnil
    rw [hnil]
    rfl

/-- C6 witness: a forced fetch of a two-row table from the initial state. -/
theorem C6_read_splits_first_row_witness :
    get_sheet_data defaultConfig (some 7) (.ok [["N"], ["v"]]) 1 true initSt =
      .ok ⟨⟨⟨some 7, 1⟩, ⟨["N"], [["v"]], 1⟩⟩, ["N"], [["v"]], 1⟩ :=
  (C6_read_splits_first_row defaultConfig (some 7) [["N"], ["v"]] 1 true
    initSt 7 (by decide) (by decide)).1

/-- C7: a cached connection handle younger than `SHEET_REAUTH_SECONDS` is
served with no authentication attempt and no state change; when the handle
is stale (or absent) a new one is attempted, and a failing attempt returns
no connection while leaving the cached handle and its timestamp untouched;
since the timestamp is not renewed, every later call (at `now' ≥ now`)
whose attempt fails again still refuses to serve the stale handle. -/
theorem C7_connection_cache_policy (cfg : Config) (connect : Option Nat)
    (now now' : Int) (conn : SheetSingleton) :
    (∀ sh, conn.sheet = some sh → now - conn.ts < cfg.SHEET_REAUTH_SECONDS →
      get_sheet cfg connect now conn = (conn, some sh, 0)) ∧
    (conn.sheet = none ∨ cfg.SHEET_REAUTH_SECONDS ≤ now - conn.ts →
      get_sheet cfg none now conn = (conn, none, 1)) ∧
    (cfg.SHEET_REAUTH_SECONDS ≤ now - conn.ts → now ≤ now' →
      get_sheet cfg none now' conn = (conn, none, 1)) := by
  refine ⟨fun sh hs ht => get_sheet_fresh cfg connect now conn sh hs ht,
    fun h => get_sheet_stale_none cfg now conn h,
    fun h1 h2 => get_sheet_stale_none cfg now' conn (Or.inr ?_)⟩
  calc cfg.SHEET_REAUTH_SECONDS ≤ now - conn.ts := h1
    _ ≤ now' - conn.ts := by omega

/-- C7 witness: a handle established at time 0 is stale at time 5000 under
the default 3600-second re-auth window; a failing re-auth leaves it
untouched. -/
theorem C7_connection_cache_policy_witness :
    get_sheet defaultConfig none 5000 ⟨some 3, 0⟩ = (⟨some 3, 0⟩, none, 1) :=
  (C7_connection_cache_policy defaultConfig none 5000 5000
    ⟨some 3, 0⟩).2.1 (Or.inr (by decide))

/-- C4 counterexample: the query `" john"` is non-empty and not
whitespace-only, yet `search_rows` strips it before matching and returns
the row `["John","j@x.com","30"]`, no cell of which contains `" john"` as
a case-insensitive substring — refuting the stated inclusion criterion for
raw queries. -/
theorem C4_counterexample :
    (search_rows defaultConfig " john" ["Name", "Email", "Age"]
        [["John", "j@x.com", "30"]]).2 = [["John", "j@x.com", "30"]] ∧
    rowMatchesClaim " john" ["John", "j@x.com", "30"] = false :=
  ⟨rfl, rfl⟩

/-- C4 amended: a query that strips to the empty string yields an empty row
set regardless of snapshot contents; for a query with non-whitespace
content, every returned row has a cell containing the *stripped* query as
a case-insensitive substring, and the returned rows are exactly the rows
matching the stripped query, up to the result-size truncation. -/
theorem C4_amended_search_filter (cfg : Config) (q : String)
    (headers : List String) (rows : List (List String)) :
    (pyStrip q = "" → (search_rows cfg q headers rows).2 = []) ∧
    (pyStrip q ≠ "" →
      (∀ row ∈ (search_rows cfg q headers rows).2,
        rowMatches (strLower (pyStrip q)) row = true) ∧
      (search_rows cfg q headers rows).2 =
        truncateResults cfg
          (rows.filter (fun row => rowMatches (strLower (pyStrip q)) row))) := by
  constructor
  · intro hq
    have hql : strLower (pyStrip q) = "" := by rw [hq]; rfl
    unfold search_rows
    rw [if_pos hql]
  · intro hq
    have heq := search_rows_eq cfg q headers rows hq
    refine ⟨?_, heq⟩
    intro row hrow
    rw [heq] at hrow
    exact (List.mem_filter.mp (mem_truncateResults cfg _ row hrow)).2

/-- C4 amended witness: a whitespace-only query returns no rows even though
the snapshot is non-empty. -/
theorem C4_amended_search_filter_witness :
    (search_rows defaultConfig "   " ["Name"] [["John"]]).2 = [] :=
  (C4_amended_search_filter defaultConfig "   " ["Name"] [["John"]]).1
    (by decide)

/-- C5 counterexample: with `MAX_SEARCH_RESULTS = 0` (Python falsy, limit
disabled), a snapshot with one matching row makes the result longer than
the configured maximum — refuting the unconditional length bound. -/
theorem C5_counterexample :
    ¬((search_rows ⟨false, 0, 0, 15, 3600⟩ "a" ["h"] [["a"]]).2.length ≤
      (⟨false, 0, 0, 15, 3600⟩ : Config).MAX_SEARCH_RESULTS) := by
  decide

/-- C5 amended: when `MAX_SEARCH_RESULTS` is nonzero, for every snapshot
and every query with non-whitespace content the result rows are exactly
the first `MAX_SEARCH_RESULTS` matching rows in snapshot order (a prefix
of the full ordered match list), so the result length is at most
`MAX_SEARCH_RESULTS`. -/
theorem C5_amended_search_truncation (cfg : Config) (q : String)
    (headers : List String) (rows : List (List String))
    (hmax : cfg.MAX_SEARCH_RESULTS ≠ 0) (hq : pyStrip q ≠ "") :
    (search_rows cfg q headers rows).2 =
      (rows.filter (fun row => rowMatches (strLower (pyStrip q)) row)).take
        cfg.MAX_SEARCH_RESULTS ∧
    (search_rows cfg q headers rows).2.length ≤ cfg.MAX_SEARCH_RESULTS ∧
    (search_rows cfg q headers rows).2 ++
        (rows.filter (fun row => rowMatches (strLower (pyStrip q)) row)).drop
          cfg.MAX_SEARCH_RESULTS =
      rows.filter (fun row => rowMatches (strLower (pyStrip q)) row) := by
  have heq := search_rows_eq cfg q headers rows hq
  rw [truncateResults_eq_take cfg _ hmax] at heq
  refine ⟨heq, ?_, ?_⟩
  · rw [heq]
    exact List.length_take_le _ _
  · rw [heq]
    exact List.take_append_drop _ _

/-- C5 amended witness: under the default limit 25, a concrete search
result respects the bound. -/
theorem C5_amended_search_truncation_witness :
    (search_rows defaultConfig "a" ["h"] [["a"]]).2.length ≤
      defaultConfig.MAX_SEARCH_RESULTS :=
  (C5_amended_search_truncation defaultConfig "a" ["h"] [["a"]]
    (by decide) (by decide)).2.1

/-- C9: when `MAX_SEARCH_RESULTS = 0`, `search_rows` applies no truncation
at all: for every snapshot and every query with non-whitespace content it
returns every matching row. -/
theorem C9_zero_limit_unlimited (cfg : Config) (q : String)
    (headers : List String) (rows : List (List String))
    (h0 : cfg.MAX_SEARCH_RESULTS = 0) (hq : pyStrip q ≠ "") :
    (search_rows cfg q headers rows).2 =
      rows.filter (fun row => rowMatches (strLower (pyStrip q)) row) := by
  rw [search_rows_eq cfg q headers rows hq, truncateResults_zero cfg _ h0]

/-- C9 witness: with limit 0 a concrete search returns both matching rows
of a three-row snapshot. -/
theorem C9_zero_limit_unlimited_witness :
    (search_rows ⟨false, 0, 0, 15, 3600⟩ " a" ["h"]
        [["a"], ["b"], ["a!"]]).2 =
      [["a"], ["b"], ["a!"]].filter
        (fun row => rowMatches (strLower (pyStrip " a")) row) :=
  C9_zero_limit_unlimited ⟨false, 0, 0, 15, 3600⟩ " a" ["h"]
    [["a"], ["b"], ["a!"]] rfl (by decide)

/-- C10: with the table shown, a positive `MAX_VISIBLE_ROWS`, and more
snapshot rows than the limit, the index page shows exactly the last
`MAX_VISIBLE_ROWS` rows of the snapshot — a suffix of the row list. -/
theorem C10_index_shows_last_rows (cfg : Config) (headers : List String)
    (rows : List (List String)) (hshow : cfg.SHOW_TABLE = true)
    (hpos : 0 < cfg.MAX_VISIBLE_ROWS)
    (hlen : cfg.MAX_VISIBLE_ROWS < rows.length) :
    (index cfg headers rows).2 =
      rows.drop (rows.length - cfg.MAX_VISIBLE_ROWS) ∧
    (index cfg headers rows).2.length = cfg.MAX_VISIBLE_ROWS ∧
    rows.take (rows.length - cfg.MAX_VISIBLE_ROWS) ++
      (index cfg headers rows).2 = rows := by
  have hne : rows.isEmpty = false := by
    cases rows with
    | nil => simp at hlen
    | cons a l => rfl
  have hcond : ¬((headers.isEmpty && rows.isEmpty) = true) := by
    rw [hne]
    simp
  have heq : (index cfg headers rows).2 =
      rows.drop (rows.length - cfg.MAX_VISIBLE_ROWS) := by
    unfold index
    rw [if_neg hcond, if_pos hshow,
      if_pos ⟨Nat.pos_iff_ne_zero.mp hpos, hlen⟩]
  refine ⟨heq, ?_, ?_⟩
  · rw [heq, List.length_drop]
    omega
  · rw [heq]
    exact List.take_append_drop _ _

/-- C10 witness: showing a four-row snapshot with a visible-row limit of 2
displays the last two rows. -/
theorem C10_index_shows_last_rows_witness :
    (index ⟨true, 2, 25, 15, 3600⟩ ["h"] [["a"], ["b"], ["c"], ["d"]]).2 =
      [["a"], ["b"], ["c"], ["d"]].drop
        ([["a"], ["b"], ["c"], ["d"]].length - 2) :=
  (C10_index_shows_last_rows ⟨true, 2, 25, 15, 3600⟩ ["h"]
    [["a"], ["b"], ["c"], ["d"]] rfl (by decide) (by decide)).1

end Livebot
